import Mathlib

/-!
Shallow embedding of `src/subscriber-sdk-simplified/pubsub/consumer_app.py`
(a Service Bus subscriber SDK: naming resolvers, event-type registry,
subscription registration, the dispatch wrapper, the receive loop and the
run orchestrator), together with theorems settling the specification
claims about it.

Python strings are embedded as Lean `String` manipulated through their
character lists so that all operations are executable and kernel-reducible.
Python exceptions are embedded as an `Err` sum type with `Except`;
external effects (broker calls, handler invocations) are embedded as
explicit action traces and environment records.
-/

deriving instance DecidableEq for Except

namespace ConsumerAppModel

/-- Errors raised by the consumer app (Python raises plain `Exception`
with distinct messages; we give each raise site its own constructor).
The `raised` constructor stands for an arbitrary exception escaping a
collaborator call (JSON parsing, pydantic validation, the user handler). -/
inductive Err where
  | namingError (msg : String)
  | unknownStream (topic : String)
  | arityError
  | unsupportedPayloadType
  | noSubscriptions
  | raised (msg : String)
deriving DecidableEq

/-- Python `s.startswith(pre)`, via character lists. -/
def pyStartsWith (s pre : String) : Bool :=
  pre.data.isPrefixOf s.data

/-- Python `s.endswith(suf)`, via character lists. -/
def pyEndsWith (s suf : String) : Bool :=
  suf.data.isSuffixOf s.data

/-- Python `s[n:]`, via character lists. -/
def pySliceFrom (s : String) (n : Nat) : String :=
  String.mk (s.data.drop n)

/-- Auxiliary recursion for `pyReplace`: scans the character list left to
right, replacing each non-overlapping occurrence of `pat`; `fuel` bounds
the recursion (one character or one pattern-match is consumed per step). -/
def pyReplaceAux (pat repl : List Char) : Nat → List Char → List Char
  | 0, s => s
  | _ + 1, [] => []
  | fuel + 1, c :: rest =>
    if pat ≠ [] && pat.isPrefixOf (c :: rest) then
      repl ++ pyReplaceAux pat repl fuel (List.drop pat.length (c :: rest))
    else
      c :: pyReplaceAux pat repl fuel rest

/-- Python `s.replace(pat, repl)`: replaces ALL non-overlapping
occurrences of `pat` in `s`, scanning left to right. -/
def pyReplace (s pat repl : String) : String :=
  String.mk (pyReplaceAux pat.data repl.data s.data.length s.data)

/-- Modelled from the spec: `case.snake_to_kebab_case` lives in the
repository's `pubsub/case.py`, which is not part of the provided sources.
The spec describes it as a pure, deterministic, locale-independent
case-style normalization from snake case to kebab case: underscores
become hyphens. -/
def snake_to_kebab_case (s : String) : String :=
  String.mk (s.data.map (fun c => if c = '_' then '-' else c))

/-- Modelled from the spec: `case.pascal_to_kebab_case` lives in the
repository's `pubsub/case.py`, which is not part of the provided sources.
The spec describes it as a pure, deterministic, locale-independent
case-style normalization from Pascal case to kebab case: a hyphen is
inserted before every uppercase letter except the first character, and
everything is lowercased. -/
def pascal_to_kebab_case (s : String) : String :=
  String.mk (s.data.foldl
    (fun acc c =>
      if c.isUpper && acc ≠ [] then acc ++ ['-', c.toLower]
      else acc ++ [c.toLower]) [])

/-- Embedding of `get_topic_name_from_method` (consumer_app.py lines
93-98): requires the function name to start with the prefix `on_`,
raising otherwise; strips the prefix and converts snake case to kebab
case. -/
def get_topic_name_from_method (function_name : String) : Except Err String :=
  if pyStartsWith function_name "on_" then
    Except.ok (snake_to_kebab_case (pySliceFrom function_name 3))
  else
    Except.error (Err.namingError "Function name must be in the form on_<entity-name>_<event-name>")

/-- Embedding of `get_topic_name_from_event_class` (consumer_app.py lines
101-108): requires the class name to end with `StateChangeEvent`, raising
otherwise; then removes the occurrences of `StateChangeEvent` via Python
`str.replace` and converts Pascal case to kebab case. -/
def get_topic_name_from_event_class (event_class_name : String) : Except Err String :=
  if pyEndsWith event_class_name "StateChangeEvent" then
    Except.ok (pascal_to_kebab_case (pyReplace event_class_name "StateChangeEvent" ""))
  else
    Except.error (Err.namingError "Event class name must end with StateChangeEvent")

/-- The spec's reading of the suffix handling in
`resolve_stream_from_payload_type_name`: remove exactly the trailing
`StateChangeEvent` suffix, leaving interior occurrences of the suffix text
unchanged, then normalize casing. Stated from the spec's words for
comparison against `get_topic_name_from_event_class`. -/
def get_topic_name_from_event_class_specReading (event_class_name : String) : Except Err String :=
  if pyEndsWith event_class_name "StateChangeEvent" then
    Except.ok (pascal_to_kebab_case
      (String.mk (event_class_name.data.take (event_class_name.data.length - 16))))
  else
    Except.error (Err.namingError "Event class name must end with StateChangeEvent")

/-! ## Event type registry (`ConsumerApp._init_event_classes`) -/

/-- A Python `dict` with string keys: an association list with Python's
insertion semantics (assigning to an existing key updates the value in
place, otherwise the pair is appended). -/
abbrev PyDict (α : Type) : Type := List (String × α)

/-- Python dict lookup `m.get(k, None)`. -/
def pyDictGet {α : Type} : PyDict α → String → Option α
  | [], _ => none
  | (k, v) :: m, t => if t = k then some v else pyDictGet m t

/-- Python dict assignment `m[k] = v`: when `k` is present the value
stored under the existing key is updated in place (the key object is
kept, as in CPython), otherwise the pair is appended. -/
def pyDictSet {α : Type} (m : PyDict α) (k : String) (v : α) : PyDict α :=
  if (pyDictGet m k).isSome then
    m.map (fun kv => (kv.1, if kv.1 = k then v else kv.2))
  else
    m ++ [(k, v)]

/-- The left-to-right evaluation of the dict comprehension in
`_init_event_classes`, starting from an already accumulated dict `m`:
each class name is resolved to its topic (a naming failure propagates)
and assigned into the dict with Python dict-key semantics. -/
def build_topic_map : PyDict String → List String → Except Err (PyDict String)
  | m, [] => Except.ok m
  | m, event_class :: rest =>
    match get_topic_name_from_event_class event_class with
    | Except.error e => Except.error e
    | Except.ok topic => build_topic_map (pyDictSet m topic event_class) rest

/-- Embedding of `ConsumerApp._init_event_classes` (consumer_app.py lines
146-154): builds `_topic_to_event_class_map` as a dict comprehension over
the discovered event classes (here represented by their class names),
keyed by `get_topic_name_from_event_class`. A naming failure for any
class propagates; key collisions follow Python dict-comprehension
semantics. -/
def _init_event_classes (event_classes : List String) : Except Err (PyDict String) :=
  build_topic_map [] event_classes

/-- Flat option choice: the first operand when present, otherwise the
second. Used to state lookup properties of the registry build. -/
def optOr {α : Type} (a b : Option α) : Option α :=
  match a with
  | some x => some x
  | none => b

/-! ## Handler shape inspection and registration -/

/-- A Python type annotation that can appear on the handler's single
parameter, as far as `wrap_handler` distinguishes them: the builtin
`dict`, or a class identified by its name (compared by identity with the
subscription's event class). -/
inductive PyType where
  | dictType
  | classType (name : String)
deriving DecidableEq

/-- The statically inspectable part of a Python handler function:
`__name__`, `inspect.getfullargspec(...).args` and the annotation of the
first parameter (`argspec.annotations.get(argspec.args[0], None)`). -/
structure Func where
  name : String
  args : List String
  firstArgAnnotation : Option PyType
deriving DecidableEq

/-- Embedding of `ConsumerApp._get_payload_type_from_method`
(consumer_app.py lines 160-168): requires exactly one parameter, raising
otherwise; returns the (possibly absent) annotation of that parameter. -/
def _get_payload_type_from_method (func : Func) : Except Err (Option PyType) :=
  if func.args.length ≠ 1 then
    Except.error Err.arityError
  else
    Except.ok func.firstArgAnnotation

/-- Embedding of the `Subscription` class (consumer_app.py lines 66-90),
holding the originating `Func` in place of the wrapped-handler closure
(the closure is `wrap_handler` applied to that `Func` and the resolved
event class). -/
structure SubscriptionR where
  topic : String
  subscription_name : String
  func : Func
  func_name : String
  max_message_count : Option Int
  max_wait_time : Option Int
  max_lock_renewal_duration : Option Int
deriving DecidableEq

/-- Embedding of `ConsumerApp._get_subscription_from_method`
(consumer_app.py lines 207-273), the registration-time path of the
`consume` decorator. `topic_to_event_class_map` is the registry built by
`_init_event_classes`; `default_subscription_name` the configured
default. Fails when the function name violates the `on_` convention or
when no event class matches the topic; performs no inspection of the
handler's parameters. -/
def _get_subscription_from_method
    (topic_to_event_class_map : PyDict String)
    (default_subscription_name : String)
    (func : Func)
    (topic_name : Option String)
    (subscription_name : Option String)
    (max_message_count : Option Int)
    (max_wait_time : Option Int)
    (max_lock_renewal_duration : Option Int) : Except Err SubscriptionR :=
  match get_topic_name_from_method func.name with
  | Except.error e => Except.error e
  | Except.ok notification_type =>
    let sub_name := subscription_name.getD default_subscription_name
    let topic := topic_name.getD notification_type
    match pyDictGet topic_to_event_class_map topic with
    | none => Except.error (Err.unknownStream topic)
    | some _ =>
      Except.ok
        { topic := topic
          subscription_name := sub_name
          func := func
          func_name := func.name
          max_message_count := max_message_count
          max_wait_time := max_wait_time
          max_lock_renewal_duration := max_lock_renewal_duration }

/-! ## Dispatch wrapper (`wrap_handler`) -/

/-- Embedding of the `ConsumerResult` enum (consumer_app.py lines 36-46). -/
inductive ConsumerResult where
  | SUCCESS
  | RETRY
  | DROP
deriving DecidableEq

/-- A value returned by the user handler: a `ConsumerResult` member,
Python `None`, or any other object (which compares unequal to every
`ConsumerResult` member under Python `==`). -/
inductive HandlerReturn where
  | result (r : ConsumerResult)
  | noneVal
  | other (repr : String)
deriving DecidableEq

/-- The payload handed to the user handler: the raw parsed dict when the
annotation is `dict`, or an instance of the subscription's event class
produced by `parse_obj_as`. -/
inductive Payload where
  | raw (d : PyDict String)
  | typed (class_name : String) (d : PyDict String)
deriving DecidableEq

/-- The collaborator (receiver) calls that `wrap_handler` can apply to a
message: `complete_message`, `abandon_message`, or `dead_letter_message`
with a reason. -/
inductive MsgAction where
  | complete
  | abandon
  | deadLetter (reason : String)
deriving DecidableEq

/-- Environment of one `wrap_handler` invocation: the outcomes of the
three fallible collaborator operations it performs, for the particular
received message. `parseJson` is `jsons.loads(str(msg), dict)`;
`parseObjAs` is `parse_obj_as(event_class, parsed_message)`; `call` is
`await func(payload)`. An `Except.error` models the operation raising. -/
structure MsgEnv where
  parseJson : Except Err (PyDict String)
  parseObjAs : PyDict String → Except Err (PyDict String)
  call : Payload → Except Err HandlerReturn

/-- The code of `wrap_handler` before its `try` block (consumer_app.py
lines 234-242): parse the message body into a dict, inspect the handler
signature, and resolve the payload according to the declared annotation.
Any failure here is raised to the caller of `wrap_handler`. -/
def resolve_payload (event_class : String) (func : Func) (env : MsgEnv) :
    Except Err Payload :=
  match env.parseJson with
  | Except.error e => Except.error e
  | Except.ok parsed_message =>
    match _get_payload_type_from_method func with
    | Except.error e => Except.error e
    | Except.ok payload_type =>
      match payload_type with
      | some PyType.dictType => Except.ok (Payload.raw parsed_message)
      | none =>
        match env.parseObjAs parsed_message with
        | Except.error e => Except.error e
        | Except.ok obj => Except.ok (Payload.typed event_class obj)
      | some (PyType.classType n) =>
        if n = event_class then
          match env.parseObjAs parsed_message with
          | Except.error e => Except.error e
          | Except.ok obj => Except.ok (Payload.typed event_class obj)
        else
          Except.error Err.unsupportedPayloadType

/-- Embedding of `wrap_handler` (consumer_app.py lines 233-261): resolve
the payload (outside the `try`), then invoke the handler and translate
its outcome into receiver calls; any exception inside the `try` leads to
`abandon_message`. The returned list is the sequence of receiver calls
applied to the message; `Except.error` means the invocation raised to its
caller. Receiver calls themselves are modelled as infallible actions. -/
def wrap_handler (event_class : String) (func : Func) (env : MsgEnv) :
    Except Err (List MsgAction) :=
  match resolve_payload event_class func env with
  | Except.error e => Except.error e
  | Except.ok payload =>
    match env.call payload with
    | Except.error _ => Except.ok [MsgAction.abandon]
    | Except.ok result =>
      if result = HandlerReturn.result ConsumerResult.RETRY then
        Except.ok [MsgAction.abandon]
      else if result = HandlerReturn.result ConsumerResult.DROP then
        Except.ok [MsgAction.deadLetter "dropped by subscriber"]
      else
        Except.ok [MsgAction.complete]

/-- Number of `complete_message` calls in a receiver-call trace. -/
def countComplete (acts : List MsgAction) : Nat :=
  acts.countP (fun a => a = MsgAction.complete)

/-- Number of `abandon_message` calls in a receiver-call trace. -/
def countAbandon (acts : List MsgAction) : Nat :=
  acts.countP (fun a => a = MsgAction.abandon)

/-- Number of `dead_letter_message` calls in a receiver-call trace. -/
def countDeadLetter (acts : List MsgAction) : Nat :=
  acts.countP (fun a => match a with | MsgAction.deadLetter _ => true | _ => false)

/-! ## Receive loop (`ConsumerApp._process_subscription`) -/

/-- The terminal state distinction for a receive loop runner: `none`
models a loop still running when the observation window (fuel) ends;
`some STOPPED` models the loop having exited its `while` and reached the
end of `_process_subscription`. -/
inductive RunnerState where
  | STOPPED
deriving DecidableEq

/-- Environment of one receive loop: `flag i` is the value of
`self._is_cancelled` observed at the `while` condition of iteration `i`,
and `batchSize i` the number of messages returned by
`receiver.receive_messages` in iteration `i`. -/
structure LoopEnv where
  flag : Nat → Bool
  batchSize : Nat → Nat

/-- Observable events of the receive loop: a read of the cancellation
flag at the loop boundary, a `receive_messages` call returning `n`
messages, and the completed concurrent dispatch of a batch of `n`
messages (the `asyncio.gather` barrier). -/
inductive LoopAction where
  | flagCheck (b : Bool)
  | receiveBatch (n : Nat)
  | dispatchBatch (n : Nat)
deriving DecidableEq

/-- Embedding of the `while not self._is_cancelled` loop of
`ConsumerApp._process_subscription` (consumer_app.py lines 293-318),
started at iteration index `i` with `fuel` bounding the number of
iterations observed. Produces the trace of loop events and `some STOPPED`
when the loop exited by observing the flag, `none` when the fuel ran out
with the loop still running. An empty batch skips the dispatch
(`continue`); a non-empty batch is fully dispatched before the next
boundary check. -/
def process_subscription_loop (env : LoopEnv) :
    Nat → Nat → List LoopAction × Option RunnerState
  | 0, _ => ([], none)
  | fuel + 1, i =>
    if env.flag i then
      ([LoopAction.flagCheck true], some RunnerState.STOPPED)
    else
      let n := env.batchSize i
      let tail := process_subscription_loop env fuel (i + 1)
      ((LoopAction.flagCheck false :: LoopAction.receiveBatch n ::
          (if n = 0 then [] else [LoopAction.dispatchBatch n])) ++ tail.1,
        tail.2)

/-- Number of `receive_messages` calls in a loop trace. -/
def countReceives (acts : List LoopAction) : Nat :=
  acts.countP (fun a => match a with | LoopAction.receiveBatch _ => true | _ => false)

/-- Holds when a trace contains nothing after an observation of the
cancellation flag being set: once `flagCheck true` appears, the trace
ends. -/
def stopsAtCancel : List LoopAction → Bool
  | [] => true
  | LoopAction.flagCheck true :: rest => rest.isEmpty
  | _ :: rest => stopsAtCancel rest

/-! ## Effective settings (`or`-chained defaults) -/

/-- Python `x or d` where `x` is an `Optional[int]` and `d` an `int`:
`None` and `0` are falsy, every other int truthy. -/
def pyOrInt (x : Option Int) (d : Int) : Int :=
  match x with
  | none => d
  | some v => if v = 0 then d else v

/-- The environment-derived runtime-wide defaults (consumer_app.py lines
29-31). -/
structure EnvDefaults where
  MAX_MESSAGE_COUNT : Int
  MAX_WAIT_TIME : Int
  MAX_LOCK_RENEWAL_DURATION : Int
deriving DecidableEq

/-- Embedding of the default computation in `ConsumerApp.__init__`
(consumer_app.py lines 140-142): each constructor argument is combined
with the environment default via Python `or`. Returns
`(_default_max_message_count, _default_max_wait_time,
_default_max_lock_renewal_duration)`. -/
def init_defaults (envd : EnvDefaults)
    (max_message_count max_wait_time max_lock_renewal_duration : Option Int) :
    Int × Int × Int :=
  (pyOrInt max_message_count envd.MAX_MESSAGE_COUNT,
    pyOrInt max_wait_time envd.MAX_WAIT_TIME,
    pyOrInt max_lock_renewal_duration envd.MAX_LOCK_RENEWAL_DURATION)

/-- Embedding of the per-subscription effective settings in
`ConsumerApp._process_subscription` (consumer_app.py lines 277-279): each
override is combined with the instance default via Python `or`. -/
def effective_settings (s : SubscriptionR)
    (default_max_message_count default_max_wait_time default_max_lock_renewal_duration : Int) :
    Int × Int × Int :=
  (pyOrInt s.max_message_count default_max_message_count,
    pyOrInt s.max_wait_time default_max_wait_time,
    pyOrInt s.max_lock_renewal_duration default_max_lock_renewal_duration)

/-! ## Run orchestrator (`ConsumerApp.run`) -/

/-- The connection-relevant environment configuration read by `run`
(consumer_app.py lines 22-33): the four workload-identity values and the
optional subscriber filter string. -/
structure RunConfig where
  AZURE_CLIENT_ID : String
  AZURE_TENANT_ID : String
  AZURE_AUTHORITY_HOST : String
  AZURE_FEDERATED_TOKEN_FILE : String
  SUBSCRIBER_FILTER : Option String
deriving DecidableEq

/-- Observable steps of `run`: establishing the Service Bus client with
one of the two credential strategies, installing the SIGTERM handler, and
launching one receive-loop runner per eligible subscription. -/
inductive RunAction where
  | connectWorkloadIdentity
  | connectConnectionString
  | installSigtermHandler
  | startRunner (topic : String) (subscription_name : String)
deriving DecidableEq

/-- Python `s.split(",")` on the filter string. -/
def pySplitComma (s : String) : List String :=
  s.splitOn ","

/-- Embedding of `ConsumerApp.run` up to the launching of the
subscription processors (consumer_app.py lines 325-376): the empty-registry
check precedes everything; then a client is created (choosing workload
identity only when all four config values are non-empty), the SIGTERM
handler installed, the filter resolved (argument, else environment
variable, else no filtering), and one runner started per subscription
passing the filter. Returns the trace of steps performed together with
the error, if one was raised. -/
def run (subscriptions : List SubscriptionR) (cfg : RunConfig)
    (filter : Option (List String)) : List RunAction × Option Err :=
  if subscriptions.length = 0 then
    ([], some Err.noSubscriptions)
  else
    let connect :=
      if cfg.AZURE_CLIENT_ID ≠ "" && cfg.AZURE_TENANT_ID ≠ "" &&
          cfg.AZURE_AUTHORITY_HOST ≠ "" && cfg.AZURE_FEDERATED_TOKEN_FILE ≠ "" then
        RunAction.connectWorkloadIdentity
      else
        RunAction.connectConnectionString
    let filter :=
      match filter with
      | none => cfg.SUBSCRIBER_FILTER.map pySplitComma
      | some f => some f
    let eligible := subscriptions.filter (fun s =>
      match filter with
      | none => true
      | some f => (s.topic ++ "|" ++ s.subscription_name) ∈ f)
    (connect :: RunAction.installSigtermHandler ::
        eligible.map (fun s => RunAction.startRunner s.topic s.subscription_name),
      none)

/-! ## Concrete dispatch environments used when instantiating theorems -/

/-- A message whose body is not valid JSON: `jsons.loads` raises. -/
def badJsonEnv : MsgEnv :=
  { parseJson := Except.error (Err.raised "invalid json")
    parseObjAs := fun d => Except.ok d
    call := fun _ => Except.ok HandlerReturn.noneVal }

/-- A well-formed message whose user handler raises. -/
def handlerRaisesEnv : MsgEnv :=
  { parseJson := Except.ok []
    parseObjAs := fun d => Except.ok d
    call := fun _ => Except.error (Err.raised "handler failed") }

/-- A well-formed message used against handlers whose signature is
invalid (the handler is never reached). -/
def shapeProbeEnv : MsgEnv :=
  { parseJson := Except.ok []
    parseObjAs := fun d => Except.ok d
    call := fun _ => Except.ok HandlerReturn.noneVal }

/-- A well-formed message whose user handler returns `None`. -/
def handlerReturnsNoneEnv : MsgEnv :=
  { parseJson := Except.ok []
    parseObjAs := fun d => Except.ok d
    call := fun _ => Except.ok HandlerReturn.noneVal }

/-- A well-formed message whose user handler returns `ConsumerResult.DROP`. -/
def handlerReturnsDropEnv : MsgEnv :=
  { parseJson := Except.ok []
    parseObjAs := fun d => Except.ok d
    call := fun _ => Except.ok (HandlerReturn.result ConsumerResult.DROP) }

/-- Boolean success test on `Except`, used to compare registration
outcomes. -/
def exceptIsOk {ε α : Type} : Except ε α → Bool
  | Except.ok _ => true
  | Except.error _ => false

/-! ## Dictionary lemmas for the registry build -/

theorem pyDictGet_map_update {α : Type} (m : PyDict α) (k : String) (v : α) (t : String) :
    pyDictGet (m.map (fun kv => (kv.1, if kv.1 = k then v else kv.2))) t =
      if t = k then (if (pyDictGet m k).isSome then some v else none)
      else pyDictGet m t := by
  induction m with
  | nil => simp [pyDictGet]
  | cons a m ih =>
    obtain ⟨ak, av⟩ := a
    by_cases hak : ak = k
    · subst hak
      by_cases htk : t = ak <;> simp [pyDictGet, htk, ih]
    · have hka : ¬ k = ak := fun h => hak h.symm
      by_cases hta : t = ak
      · have htk : ¬ t = k := fun hh => hak (hta ▸ hh)
        simp [pyDictGet, hak, hka, hta, htk]
      · simp [pyDictGet, hak, hka, hta, ih]

theorem pyDictGet_append_absent {α : Type} (m : PyDict α) (k : String) (v : α) (t : String)
    (h : pyDictGet m k = none) :
    pyDictGet (m ++ [(k, v)]) t = if t = k then some v else pyDictGet m t := by
  induction m with
  | nil => simp [pyDictGet]
  | cons a m ih =>
    obtain ⟨ak, av⟩ := a
    have hka : ¬ k = ak := by
      intro hk
      simp [pyDictGet, hk] at h
    have h2 : pyDictGet m k = none := by
      simpa [pyDictGet, hka] using h
    have hak : ¬ ak = k := fun hh => hka hh.symm
    by_cases hta : t = ak
    · have htk : ¬ t = k := fun hh => hka (hta ▸ hh.symm)
      simp [pyDictGet, hta, htk, hak]
    · simp [pyDictGet, hta, ih h2]

theorem pyDictGet_pyDictSet {α : Type} (m : PyDict α) (k : String) (v : α) (t : String) :
    pyDictGet (pyDictSet m k v) t = if t = k then some v else pyDictGet m t := by
  by_cases h : (pyDictGet m k).isSome
  · simp [pyDictSet, h, pyDictGet_map_update]
  · have hn : pyDictGet m k = none := by
      cases hh : pyDictGet m k with
      | none => rfl
      | some x => rw [hh] at h; simp at h
    simp [pyDictSet, h, pyDictGet_append_absent m k v t hn]

theorem optOr_none_right {α : Type} (a : Option α) : optOr a none = a := by
  cases a <;> rfl

theorem optOr_assoc {α : Type} (a b c : Option α) :
    optOr (optOr a b) c = optOr a (optOr b c) := by
  cases a <;> rfl

theorem find?_append_singleton {α : Type} (l : List α) (c : α) (p : α → Bool) :
    List.find? p (l ++ [c]) = optOr (List.find? p l) (if p c then some c else none) := by
  induction l with
  | nil =>
    cases h : p c <;> simp [List.find?, h, optOr]
  | cons a l ih =>
    cases h : p a
    · simp [List.find?, h, ih]
    · simp [List.find?, h, optOr]

theorem build_topic_map_lookup (event_classes : List String) :
    ∀ (m0 m : PyDict String), build_topic_map m0 event_classes = Except.ok m → ∀ t : String,
      pyDictGet m t =
        optOr
          (List.find? (fun c => decide (get_topic_name_from_event_class c = Except.ok t))
            event_classes.reverse)
          (pyDictGet m0 t) := by
  induction event_classes with
  | nil =>
    intro m0 m h t
    simp [build_topic_map] at h
    subst h
    simp [optOr]
  | cons c cs ih =>
    intro m0 m h t
    rw [build_topic_map] at h
    cases hc : get_topic_name_from_event_class c with
    | error e => rw [hc] at h; exact absurd h (by simp)
    | ok tc =>
      rw [hc] at h
      have ihm := ih (pyDictSet m0 tc c) m h t
      rw [List.reverse_cons, find?_append_singleton, optOr_assoc, ihm, pyDictGet_pyDictSet]
      congr 1
      by_cases htc : t = tc
      · subst htc
        simp [hc, optOr]
      · have hpc : decide (get_topic_name_from_event_class c = Except.ok t) = false := by
          simp [hc]
          exact fun hh => htc hh.symm
        simp [hpc, optOr, htc]

/-! ## Claim theorems -/

/-- C2 counterexample: two distinct event class names,
`XStateChangeEvent` and `StateChangeEventXStateChangeEvent`, both resolve
to the stream id `x`, yet building the registry does not fail: it returns
a map that silently kept the second (last-discovered) class. -/
theorem c2_counterexample :
    ("XStateChangeEvent" : String) ≠ "StateChangeEventXStateChangeEvent" ∧
    get_topic_name_from_event_class "XStateChangeEvent" = Except.ok "x" ∧
    get_topic_name_from_event_class "StateChangeEventXStateChangeEvent" = Except.ok "x" ∧
    _init_event_classes ["XStateChangeEvent", "StateChangeEventXStateChangeEvent"] =
      Except.ok [("x", "StateChangeEventXStateChangeEvent")] := by
  refine ⟨by decide, by decide, by decide, by decide⟩

/-- C2 (amended): when the stream map build succeeds, the entry for every
stream id is the LAST discovered event class resolving to it (Python
dict-comprehension last-wins); in particular a collision between two
distinct types is never reported, the earlier type is silently
overwritten. -/
theorem c2_last_wins (event_classes : List String) (m : PyDict String)
    (h : _init_event_classes event_classes = Except.ok m) (t : String) :
    pyDictGet m t =
      List.find? (fun c => decide (get_topic_name_from_event_class c = Except.ok t))
        event_classes.reverse := by
  have hb := build_topic_map_lookup event_classes [] m h t
  rw [hb]
  simp [pyDictGet, optOr_none_right]

/-- C2 witness: the last-wins lookup law evaluated on the concrete
colliding pair. -/
theorem c2_witness :
    pyDictGet [("x", "StateChangeEventXStateChangeEvent")] "x" =
      List.find? (fun c => decide (get_topic_name_from_event_class c = Except.ok "x"))
        (["XStateChangeEvent", "StateChangeEventXStateChangeEvent"] : List String).reverse :=
  c2_last_wins ["XStateChangeEvent", "StateChangeEventXStateChangeEvent"]
    [("x", "StateChangeEventXStateChangeEvent")] (by decide) "x"

/-! ## Receive loop lemmas -/

theorem stopsAtCancel_fcFalse (rest : List LoopAction) :
    stopsAtCancel (LoopAction.flagCheck false :: rest) = stopsAtCancel rest := rfl

theorem stopsAtCancel_recv (n : Nat) (rest : List LoopAction) :
    stopsAtCancel (LoopAction.receiveBatch n :: rest) = stopsAtCancel rest := rfl

theorem stopsAtCancel_disp (n : Nat) (rest : List LoopAction) :
    stopsAtCancel (LoopAction.dispatchBatch n :: rest) = stopsAtCancel rest := rfl

theorem loop_receives_bounded (env : LoopEnv) :
    ∀ (j s fuel : Nat), env.flag (s + j) = true → j < fuel →
      (process_subscription_loop env fuel s).2 = some RunnerState.STOPPED ∧
      countReceives (process_subscription_loop env fuel s).1 ≤ j := by
  intro j
  induction j with
  | zero =>
    intro s fuel h hf
    cases fuel with
    | zero => omega
    | succ f =>
      rw [Nat.add_zero] at h
      simp [process_subscription_loop, h, countReceives]
  | succ j ih =>
    intro s fuel h hf
    cases fuel with
    | zero => omega
    | succ f =>
      by_cases hs : env.flag s
      · simp [process_subscription_loop, hs, countReceives]
      · have h2 : env.flag ((s + 1) + j) = true := by
          have harith : (s + 1) + j = s + (j + 1) := by omega
          rw [harith]
          exact h
        have hj : j < f := by omega
        obtain ⟨hstop, hcount⟩ := ih (s + 1) f h2 hj
        constructor
        · simpa [process_subscription_loop, hs] using hstop
        · by_cases hn : env.batchSize s = 0 <;>
            simp [process_subscription_loop, hs, hn, countReceives, List.countP_append,
              List.countP_cons] at hcount ⊢ <;>
            omega

theorem loop_stopsAtCancel (env : LoopEnv) :
    ∀ (fuel s : Nat), stopsAtCancel (process_subscription_loop env fuel s).1 = true := by
  intro fuel
  induction fuel with
  | zero => intro s; rfl
  | succ f ih =>
    intro s
    by_cases hs : env.flag s
    · simp [process_subscription_loop, hs, stopsAtCancel]
    · by_cases hn : env.batchSize s = 0 <;>
        simp [process_subscription_loop, hs, hn, stopsAtCancel_fcFalse,
          stopsAtCancel_recv, stopsAtCancel_disp, ih]

/-- C4: once the receive loop observes the cancellation flag set at a
loop-iteration boundary, it reaches the terminal `STOPPED` state, the
flag check ends the trace (so no `receive_messages` call and no batch
dispatch happens after the observation), and the number of
`receive_messages` calls is bounded by the index of the boundary at which
the flag is first seen set — i.e. at most the batch already in flight is
completed. -/
theorem c4_cancellation (env : LoopEnv) (k fuel : Nat)
    (hflag : env.flag k = true) (hfuel : k < fuel) :
    (process_subscription_loop env fuel 0).2 = some RunnerState.STOPPED ∧
    countReceives (process_subscription_loop env fuel 0).1 ≤ k ∧
    stopsAtCancel (process_subscription_loop env fuel 0).1 = true := by
  have h0 : env.flag (0 + k) = true := by simpa using hflag
  obtain ⟨h1, h2⟩ := loop_receives_bounded env k 0 fuel h0 hfuel
  exact ⟨h1, h2, loop_stopsAtCancel env fuel 0⟩

/-- C4 witness: a loop whose cancellation flag turns on from iteration 1,
with two-message batches, observed for three iterations: it stops, makes
at most one receive call, and its trace ends at the flag observation. -/
theorem c4_witness :
    (process_subscription_loop ⟨fun i => decide (1 ≤ i), fun _ => 2⟩ 3 0).2 =
      some RunnerState.STOPPED ∧
    countReceives (process_subscription_loop ⟨fun i => decide (1 ≤ i), fun _ => 2⟩ 3 0).1 ≤ 1 ∧
    stopsAtCancel (process_subscription_loop ⟨fun i => decide (1 ≤ i), fun _ => 2⟩ 3 0).1 = true :=
  c4_cancellation ⟨fun i => decide (1 ≤ i), fun _ => 2⟩ 1 3 (by decide) (by decide)

/-! ## Dispatch wrapper theorems -/

/-- C1 counterexample: a message whose body fails JSON parsing makes
`wrap_handler` raise to its caller (the deserialization happens before
the `try` block), instead of abandoning the message: an exception does
propagate out of the wrapped handler. -/
theorem c1_counterexample :
    wrap_handler "TaskCreatedStateChangeEvent" ⟨"on_task_created", ["message"], none⟩ badJsonEnv =
      Except.error (Err.raised "invalid json") := by decide

/-- C1 (amended): a failure raised by the user handler (Step 2) is
converted to the RETRY disposition — exactly one abandon call, nothing
propagates; but a failure during deserialization / payload resolution
(Step 1) is NOT converted: it propagates out of the wrapped handler to
its caller, with no disposition applied to the message. -/
theorem c1_partial_isolation (event_class : String) (func : Func) (env : MsgEnv) :
    (∀ (p : Payload) (e : Err), resolve_payload event_class func env = Except.ok p →
      env.call p = Except.error e →
      wrap_handler event_class func env = Except.ok [MsgAction.abandon]) ∧
    (∀ e : Err, resolve_payload event_class func env = Except.error e →
      wrap_handler event_class func env = Except.error e) := by
  constructor
  · intro p e hp hc
    simp [wrap_handler, hp, hc]
  · intro e hp
    simp [wrap_handler, hp]

/-- C1 witness: both halves of the amended statement evaluated on
concrete messages — a raising handler leads to one abandon call, a
non-JSON body leads to the exception escaping. -/
theorem c1_witness :
    wrap_handler "E" ⟨"on_x", ["message"], none⟩ handlerRaisesEnv =
      Except.ok [MsgAction.abandon] ∧
    wrap_handler "E" ⟨"on_x", ["message"], none⟩ badJsonEnv =
      Except.error (Err.raised "invalid json") :=
  ⟨(c1_partial_isolation "E" ⟨"on_x", ["message"], none⟩ handlerRaisesEnv).1
      (Payload.typed "E" []) (Err.raised "handler failed") (by decide) (by decide),
    (c1_partial_isolation "E" ⟨"on_x", ["message"], none⟩ badJsonEnv).2
      (Err.raised "invalid json") (by decide)⟩

/-- C5: a handler invocation that completes normally returning anything
other than the RETRY or DROP member of `ConsumerResult` (including
`None` and arbitrary non-disposition values) leads to exactly one
`complete_message` (ack) call, zero abandon calls and zero dead-letter
calls on the message. -/
theorem c5_ack_on_non_disposition (event_class : String) (func : Func) (env : MsgEnv)
    (p : Payload) (r : HandlerReturn)
    (hp : resolve_payload event_class func env = Except.ok p)
    (hr : env.call p = Except.ok r)
    (hretry : r ≠ HandlerReturn.result ConsumerResult.RETRY)
    (hdrop : r ≠ HandlerReturn.result ConsumerResult.DROP) :
    wrap_handler event_class func env = Except.ok [MsgAction.complete] ∧
    ∀ acts, wrap_handler event_class func env = Except.ok acts →
      countComplete acts = 1 ∧ countAbandon acts = 0 ∧ countDeadLetter acts = 0 := by
  have h1 : wrap_handler event_class func env = Except.ok [MsgAction.complete] := by
    simp [wrap_handler, hp, hr, hretry, hdrop]
  refine ⟨h1, ?_⟩
  intro acts hacts
  rw [h1] at hacts
  injection hacts with h2
  subst h2
  decide

/-- C5 witness: a handler returning `None` on a well-formed message is
acked. -/
theorem c5_witness :
    wrap_handler "E" ⟨"on_x", ["message"], none⟩ handlerReturnsNoneEnv =
      Except.ok [MsgAction.complete] :=
  (c5_ack_on_non_disposition "E" ⟨"on_x", ["message"], none⟩ handlerReturnsNoneEnv
    (Payload.typed "E" []) HandlerReturn.noneVal
    (by decide) (by decide) (by decide) (by decide)).1

/-- C6: a handler invocation that completes normally returning the DROP
(dead-letter) member of `ConsumerResult` leads to exactly one
`dead_letter_message` call with the fixed reason string
`dropped by subscriber`, zero complete calls and zero abandon calls on
the message. -/
theorem c6_reject_on_drop (event_class : String) (func : Func) (env : MsgEnv) (p : Payload)
    (hp : resolve_payload event_class func env = Except.ok p)
    (hr : env.call p = Except.ok (HandlerReturn.result ConsumerResult.DROP)) :
    wrap_handler event_class func env =
      Except.ok [MsgAction.deadLetter "dropped by subscriber"] ∧
    ∀ acts, wrap_handler event_class func env = Except.ok acts →
      countDeadLetter acts = 1 ∧ countComplete acts = 0 ∧ countAbandon acts = 0 := by
  have h1 : wrap_handler event_class func env =
      Except.ok [MsgAction.deadLetter "dropped by subscriber"] := by
    simp [wrap_handler, hp, hr]
  refine ⟨h1, ?_⟩
  intro acts hacts
  rw [h1] at hacts
  injection hacts with h2
  subst h2
  decide

/-- C6 witness: a handler returning `ConsumerResult.DROP` on a
well-formed message is dead-lettered with the fixed reason. -/
theorem c6_witness :
    wrap_handler "E" ⟨"on_x", ["message"], none⟩ handlerReturnsDropEnv =
      Except.ok [MsgAction.deadLetter "dropped by subscriber"] :=
  (c6_reject_on_drop "E" ⟨"on_x", ["message"], none⟩ handlerReturnsDropEnv
    (Payload.typed "E" []) (by decide) (by decide)).1

/-! ## Registration theorems -/

/-- C3 counterexample: a handler with TWO parameters (violating the
exactly-one-parameter rule) registers successfully — registration does
not fail, so signature validation is not performed at registration
time. -/
theorem c3_counterexample :
    (["a", "b"] : List String).length = 2 ∧
    exceptIsOk (_get_subscription_from_method
      [("task-created", "TaskCreatedStateChangeEvent")] "my-sub"
      ⟨"on_task_created", ["a", "b"], none⟩ none none none none none) = true := by
  refine ⟨by decide, by decide⟩

/-- C3 (amended): the handler's declared input shape is never inspected
at registration time — registration success is independent of the
parameter list and annotation; the shape is validated per message at
dispatch time inside `wrap_handler`, where a wrong parameter count or an
annotation that is neither `dict` nor the subscription's payload type
raises (and, coming before the `try` block, the raise propagates). -/
theorem c3_dispatch_time_validation :
    (∀ (map : PyDict String) (dsn nm : String) (args1 args2 : List String)
        (ann1 ann2 : Option PyType) (tn sn : Option String) (o1 o2 o3 : Option Int),
      exceptIsOk (_get_subscription_from_method map dsn ⟨nm, args1, ann1⟩ tn sn o1 o2 o3) =
        exceptIsOk (_get_subscription_from_method map dsn ⟨nm, args2, ann2⟩ tn sn o1 o2 o3)) ∧
    (∀ (event_class nm : String) (args : List String) (ann : Option PyType) (env : MsgEnv)
        (d : PyDict String), args.length ≠ 1 → env.parseJson = Except.ok d →
      wrap_handler event_class ⟨nm, args, ann⟩ env = Except.error Err.arityError) ∧
    (∀ (event_class nm arg n : String) (env : MsgEnv) (d : PyDict String),
      n ≠ event_class → env.parseJson = Except.ok d →
      wrap_handler event_class ⟨nm, [arg], some (PyType.classType n)⟩ env =
        Except.error Err.unsupportedPayloadType) := by
  refine ⟨?_, ?_, ?_⟩
  · intro map dsn nm args1 args2 ann1 ann2 tn sn o1 o2 o3
    cases h : get_topic_name_from_method nm with
    | error e => simp [_get_subscription_from_method, h, exceptIsOk]
    | ok nt =>
      simp only [_get_subscription_from_method, h]
      cases h2 : pyDictGet map (tn.getD nt) <;> simp [h2, exceptIsOk]
  · intro ec nm args ann env d ha hj
    simp [wrap_handler, resolve_payload, _get_payload_type_from_method, hj, ha]
  · intro ec nm arg n env d hn hj
    simp [wrap_handler, resolve_payload, _get_payload_type_from_method, hj, hn]

/-- C3 witness: the two-parameter handler and a correctly-shaped handler
register with the same outcome; at dispatch time the two-parameter
handler raises the arity error and a handler annotated with an unrelated
class raises the unsupported-payload-type error. -/
theorem c3_witness :
    exceptIsOk (_get_subscription_from_method
        [("task-created", "TaskCreatedStateChangeEvent")] "my-sub"
        ⟨"on_task_created", ["a", "b"], none⟩ none none none none none) =
      exceptIsOk (_get_subscription_from_method
        [("task-created", "TaskCreatedStateChangeEvent")] "my-sub"
        ⟨"on_task_created", ["message"], some PyType.dictType⟩ none none none none none) ∧
    wrap_handler "E" ⟨"on_x", ["a", "b"], none⟩ shapeProbeEnv = Except.error Err.arityError ∧
    wrap_handler "E" ⟨"on_x", ["m"], some (PyType.classType "F")⟩ shapeProbeEnv =
      Except.error Err.unsupportedPayloadType :=
  ⟨c3_dispatch_time_validation.1 [("task-created", "TaskCreatedStateChangeEvent")] "my-sub"
      "on_task_created" ["a", "b"] ["message"] none (some PyType.dictType) none none none none none,
    c3_dispatch_time_validation.2.1 "E" "on_x" ["a", "b"] none shapeProbeEnv []
      (by decide) (by decide),
    c3_dispatch_time_validation.2.2 "E" "on_x" "m" "F" shapeProbeEnv []
      (by decide) (by decide)⟩

/-! ## Orchestrator and naming theorems -/

/-- C7: calling `run` with zero registered subscriptions raises the
no-subscriptions error immediately: the returned trace is empty, so in
particular no connection step (neither credential strategy) was
attempted. -/
theorem c7_empty_registry (cfg : RunConfig) (filter : Option (List String)) :
    run [] cfg filter = ([], some Err.noSubscriptions) := rfl

/-- C8: `get_topic_name_from_method` rejects every name that does not
start with `on_` with the naming error, and succeeds exactly on names
with that prefix, returning the snake-to-kebab conversion of the
remainder after the prefix. As a Lean function of the name alone it is
pure, hence deterministic and stable under repeated calls. -/
theorem c8_handler_name_resolution (name : String) :
    (pyStartsWith name "on_" = false →
      get_topic_name_from_method name =
        Except.error
          (Err.namingError "Function name must be in the form on_<entity-name>_<event-name>")) ∧
    (∀ out, get_topic_name_from_method name = Except.ok out ↔
      pyStartsWith name "on_" = true ∧ out = snake_to_kebab_case (pySliceFrom name 3)) := by
  cases h : pyStartsWith name "on_" <;>
    simp [get_topic_name_from_method, h, eq_comm]

/-- C8 witness: the resolver evaluated at a prefix-violating name and a
conforming name. -/
theorem c8_witness :
    get_topic_name_from_method "handle_task" =
      Except.error
        (Err.namingError "Function name must be in the form on_<entity-name>_<event-name>") ∧
    get_topic_name_from_method "on_user_created" = Except.ok "user-created" :=
  ⟨(c8_handler_name_resolution "handle_task").1 (by decide),
    ((c8_handler_name_resolution "on_user_created").2 "user-created").mpr (by decide)⟩

/-- C9 counterexample: the type name
`FooStateChangeEventBarStateChangeEvent` ends with the suffix, but the
resolver removes BOTH occurrences of `StateChangeEvent` (Python
`str.replace` replaces all occurrences), yielding `foo-bar`, whereas
removing exactly the trailing suffix as the claim states would leave the
interior occurrence and yield `foo-state-change-event-bar`. -/
theorem c9_counterexample :
    pyEndsWith "FooStateChangeEventBarStateChangeEvent" "StateChangeEvent" = true ∧
    get_topic_name_from_event_class "FooStateChangeEventBarStateChangeEvent" =
      Except.ok "foo-bar" ∧
    get_topic_name_from_event_class_specReading "FooStateChangeEventBarStateChangeEvent" =
      Except.ok "foo-state-change-event-bar" ∧
    get_topic_name_from_event_class "FooStateChangeEventBarStateChangeEvent" ≠
      get_topic_name_from_event_class_specReading "FooStateChangeEventBarStateChangeEvent" := by
  refine ⟨by decide, by decide, by decide, by decide⟩

/-- C9 (amended): the resolver fails with the naming error for every type
name not ending in `StateChangeEvent`, and for names ending in it removes
EVERY occurrence of the suffix text (Python `str.replace` semantics, so
interior occurrences are removed too) before normalizing Pascal case to
kebab case. -/
theorem c9_replace_all (type_name : String) :
    (pyEndsWith type_name "StateChangeEvent" = false →
      get_topic_name_from_event_class type_name =
        Except.error (Err.namingError "Event class name must end with StateChangeEvent")) ∧
    (pyEndsWith type_name "StateChangeEvent" = true →
      get_topic_name_from_event_class type_name =
        Except.ok (pascal_to_kebab_case (pyReplace type_name "StateChangeEvent" ""))) := by
  cases h : pyEndsWith type_name "StateChangeEvent" <;>
    simp [get_topic_name_from_event_class, h]

/-- C9 witness: the amended resolver behavior evaluated at a
suffix-violating name and a conforming name. -/
theorem c9_witness :
    get_topic_name_from_event_class "Task" =
      Except.error (Err.namingError "Event class name must end with StateChangeEvent") ∧
    get_topic_name_from_event_class "UserCreatedStateChangeEvent" =
      Except.ok (pascal_to_kebab_case (pyReplace "UserCreatedStateChangeEvent"
        "StateChangeEvent" "")) :=
  ⟨(c9_replace_all "Task").1 (by decide),
    (c9_replace_all "UserCreatedStateChangeEvent").2 (by decide)⟩

/-- C10: an explicit `0` passed for a per-subscription override or a
constructor argument is falsy under Python `or` chaining, so it is
treated exactly like omitting the value: the runtime-wide default (for
overrides) or the environment default (for constructor arguments) is
used instead of the configured zero. -/
theorem c10_zero_is_falsy (envd : EnvDefaults) (topic sub_name fn : String) (f : Func)
    (d1 d2 d3 : Int) :
    init_defaults envd (some 0) (some 0) (some 0) = init_defaults envd none none none ∧
    effective_settings ⟨topic, sub_name, f, fn, some 0, some 0, some 0⟩ d1 d2 d3 =
      effective_settings ⟨topic, sub_name, f, fn, none, none, none⟩ d1 d2 d3 := by
  constructor <;> simp [init_defaults, effective_settings, pyOrInt]

end ConsumerAppModel
